import Mathlib

/-
Verification of the secure-transport adapter in
tlslite/integration/httptlsconnection.py.

The module defines two classes:
  HTTPBaseTLSConnection - stores the target, and connect() opens a raw
    socket, optionally sets a 10-unit timeout, TCP-connects, wraps the
    socket in a fresh TLSConnection, stores it in self.sock, and invokes
    the abstract handshake hook once.
  HTTPTLSConnection - delegates credential handling to ClientHelper
    (tlslite/integration/clienthelper.py, which is not part of the
    sources here; where needed it is modelled from the spec).

The stateful Python methods are embedded as pure functions that return,
next to the new state, the list of externally visible events (socket
creation, timeout setting, TCP connect, session wrapping, transport
handle replacement, handshake invocation) in the order the code performs
them.  Object identity of sockets and sessions is modelled by a fresh
natural-number allocator threaded through the adapter state.
-/

namespace Tlslite

/-- Errors crossing the adapter boundary: the not-implemented error of
the abstract base hook, configuration (credential pairing) errors,
raw-socket errors, and secure-session (TLS) errors. -/
inductive Err where
  | notImplementedError : Err
  | configError (msg : String) : Err
  | socketError (msg : String) : Err
  | tlsError (msg : String) : Err
deriving DecidableEq

/-- A raw stream socket as connect() manipulates it: its identity, the
timeout set on it (if any), the peer it is connected to (if any), and
whether it has been closed. -/
structure RawSocket where
  id : Nat
  timeout : Option Nat
  connectedTo : Option (String × Nat)
  closed : Bool
deriving DecidableEq

/-- The secure session: a TLSConnection wraps exactly one raw socket. -/
structure TLSConnection where
  id : Nat
  sock : RawSocket
deriving DecidableEq

/-- State of the underlying HTTP connection object: the stored target,
whether a strict argument was passed to its constructor (none means the
argument was omitted), and the transport handle self.sock. -/
structure HTTPConnectionState where
  host : String
  port : Nat
  strictArg : Option Bool
  sock : Option TLSConnection
deriving DecidableEq

/-- Modelled from the spec: httplib.HTTPConnection.__init__ is an
external collaborator (the base HTTP connection abstraction).  Per the
spec it stores the target without touching the network, the port
defaulting to the default port of the class when omitted; the strict
argument, when passed, is stored as given. -/
def httplibHTTPConnectionInit (defaultPort : Nat) (host : String)
    (port : Option Nat) (strictArg : Option Bool) : HTTPConnectionState :=
  { host := host
    port := Option.getD port defaultPort
    strictArg := strictArg
    sock := none }

/-- Source line: default_port = 443. -/
def HTTPBaseTLSConnection.default_port : Nat := 443

/-- HTTPBaseTLSConnection.__init__(host, port=None, strict=None): when
strict is None the base httplib constructor is called without the strict
argument, otherwise with it. -/
def HTTPBaseTLSConnection.init (host : String) (port : Option Nat)
    (strict : Option Bool) : HTTPConnectionState :=
  match strict with
  | none => httplibHTTPConnectionInit HTTPBaseTLSConnection.default_port host port none
  | some s => httplibHTTPConnectionInit HTTPBaseTLSConnection.default_port host port (some s)

/-- Adapter state: the HTTP connection state plus the allocator giving
each new socket and session a fresh identity. -/
structure AdapterState where
  conn : HTTPConnectionState
  nextId : Nat
deriving DecidableEq

/-- The environment connect() runs in: whether the platform socket has a
settimeout attribute, and the outcome of a TCP connect to a given host
and port (none means success, some msg the raised socket error). -/
structure NetEnv where
  hasSettimeout : Bool
  connectResult : String → Nat → Option String

/-- Externally visible events of connect(), one per Python statement
with an external effect. -/
inductive Event where
  | sockCreate (id : Nat)
  | sockSetTimeout (id : Nat) (secs : Nat)
  | sockConnect (id : Nat) (host : String) (port : Nat)
  | sessionCreate (sessId : Nat) (sockId : Nat)
  | setSockField (sessId : Nat)
  | handshakeCall (sessId : Nat) (sockId : Nat)
deriving DecidableEq

/-- The raw socket as it stands after socket(), the optional
settimeout(10), and a successful sock.connect((host, port)). -/
def connectedSocket (env : NetEnv) (st : AdapterState) : RawSocket :=
  { id := st.nextId
    timeout := if env.hasSettimeout then some 10 else none
    connectedTo := some (st.conn.host, st.conn.port)
    closed := false }

/-- The fresh TLSConnection built from the newly connected socket. -/
def newSession (env : NetEnv) (st : AdapterState) : TLSConnection :=
  { id := st.nextId, sock := connectedSocket env st }

/-- A handshake hook: what self._handshake does to the session, either
returning normally or raising an error. -/
def Hook : Type := TLSConnection → Except Err Unit

/-- HTTPBaseTLSConnection.connect(), line by line:
sock = socket.socket(AF_INET, SOCK_STREAM);
if hasattr(sock, (settimeout attribute)): sock.settimeout(10);
sock.connect((self.host, self.port));
self.sock = TLSConnection(sock);
self._handshake(self.sock).
It returns the event trace, the adapter state after the call (mutations
persist even when an error is raised), and the raised error if any. -/
def HTTPBaseTLSConnection.connect (env : NetEnv) (hook : Hook)
    (st : AdapterState) : List Event × AdapterState × Option Err :=
  let n := st.nextId
  let preEvents :=
    [Event.sockCreate n] ++
      (if env.hasSettimeout then [Event.sockSetTimeout n 10] else [])
  match env.connectResult st.conn.host st.conn.port with
  | some msg =>
      (preEvents, { st with nextId := n + 1 }, some (Err.socketError msg))
  | none =>
      let sess := newSession env st
      let events := preEvents ++
        [Event.sockConnect n st.conn.host st.conn.port,
         Event.sessionCreate n n, Event.setSockField n,
         Event.handshakeCall n n]
      let st1 : AdapterState :=
        { conn := { st.conn with sock := some sess }, nextId := n + 1 }
      match hook sess with
      | Except.error e => (events, st1, some e)
      | Except.ok _ => (events, st1, none)

/-- HTTPBaseTLSConnection._handshake: raise NotImplementedError(). -/
def HTTPBaseTLSConnection.handshakeHook : Hook :=
  fun _ => Except.error Err.notImplementedError

/-- The credential parameters of the HTTPTLSConnection constructor. -/
structure Credentials where
  username : Option String
  password : Option String
  certChain : Option String
  privateKey : Option String
  x509Fingerprint : Option String
  settings : Option String
deriving DecidableEq

/-- The credential pairing invariant: username and password are supplied
together or not at all, and so are certChain and privateKey. -/
def Credentials.pairingOk (c : Credentials) : Bool :=
  (c.username.isSome == c.password.isSome) &&
    (c.certChain.isSome == c.privateKey.isSome)

/-- Modelled from the spec: the ClientHelper object (clienthelper.py is
not among the sources) stores the credential set for later handshakes. -/
structure ClientHelper where
  creds : Credentials
deriving DecidableEq

/-- Modelled from the spec: ClientHelper.__init__ (clienthelper.py is
not among the sources) performs the precondition check of the pairing
invariant as a configuration error at construction, before any network
I/O, and otherwise stores the credentials unmodified. -/
def ClientHelper.init (c : Credentials) : Except Err ClientHelper :=
  if c.pairingOk then Except.ok { creds := c }
  else Except.error (Err.configError ("credential pairing invariant violated"))

/-- State of a constructed HTTPTLSConnection: the base adapter state
plus the stored ClientHelper. -/
structure HTTPTLSConnectionState where
  base : AdapterState
  helper : ClientHelper
deriving DecidableEq

/-- HTTPTLSConnection.__init__(host, port, username, password,
certChain, privateKey, x509Fingerprint, settings): calls the base
constructor with the strict argument omitted, then the ClientHelper
constructor with the credentials.  It emits no events: construction
touches no network resource. -/
def HTTPTLSConnection.init (host : String) (port : Option Nat)
    (c : Credentials) : List Event × Except Err HTTPTLSConnectionState :=
  let conn := HTTPBaseTLSConnection.init host port none
  match ClientHelper.init c with
  | Except.error e => ([], Except.error e)
  | Except.ok h =>
      ([], Except.ok { base := { conn := conn, nextId := 0 }, helper := h })

/-- Modelled from the spec: ClientHelper._handshake (clienthelper.py is
not among the sources) performs exactly one client-handshake call on the
session, parameterized by the stored credentials, and propagates its
outcome unchanged.  The secure-session layer itself is external; its
outcome is the oracle argument. -/
def ClientHelper.handshakeHook (h : ClientHelper)
    (sessionHandshake : Credentials → TLSConnection → Except Err Unit) : Hook :=
  fun sess => sessionHandshake h.creds sess

/-- HTTPTLSConnection._handshake(tlsConnection): delegates to
ClientHelper._handshake unchanged. -/
def HTTPTLSConnection.handshakeHook (s : HTTPTLSConnectionState)
    (sessionHandshake : Credentials → TLSConnection → Except Err Unit) : Hook :=
  ClientHelper.handshakeHook s.helper sessionHandshake

/-- Number of handshake invocations recorded in a trace. -/
def handshakeCallCount (tr : List Event) : Nat :=
  tr.countP (fun e => match e with
    | Event.handshakeCall _ _ => true
    | _ => false)

/-- The socket identities on which a handshake was invoked in a trace. -/
def handshakedSockIds (tr : List Event) : List Nat :=
  tr.filterMap (fun e => match e with
    | Event.handshakeCall _ s => some s
    | _ => none)

/-- The socket identities created in a trace. -/
def createdSockIds (tr : List Event) : List Nat :=
  tr.filterMap (fun e => match e with
    | Event.sockCreate i => some i
    | _ => none)

/-- The session identities created in a trace. -/
def createdSessionIds (tr : List Event) : List Nat :=
  tr.filterMap (fun e => match e with
    | Event.sessionCreate i _ => some i
    | _ => none)

/-- Whether the adapter holds, through its transport handle, a session
wrapping a socket that is connected and not closed. -/
def AdapterState.ownsLiveSocket (st : AdapterState) : Bool :=
  match st.conn.sock with
  | none => false
  | some sess => (sess.sock.closed == false) && sess.sock.connectedTo.isSome

/-- Credential set with no credential supplied: it satisfies the pairing
invariant. -/
def noCreds : Credentials :=
  { username := none, password := none, certChain := none,
    privateKey := none, x509Fingerprint := none, settings := none }

/-- Environment where the platform socket supports settimeout and the
TCP connect succeeds. -/
def envOk : NetEnv :=
  { hasSettimeout := true, connectResult := fun _ _ => none }

/-- Hook whose handshake always succeeds. -/
def okHook : Hook := fun _ => Except.ok ()

/-- A freshly constructed adapter state targeting example.test:443. -/
def st0 : AdapterState :=
  { conn := HTTPBaseTLSConnection.init ("example.test") (some 443) none
    nextId := 0 }

/-- Hook that always raises a TLS handshake failure. -/
def failHook : Hook := fun _ => Except.error (Err.tlsError ("handshake failure"))

/-- Adapter state of a concrete adapter constructed with no credentials
(the pairing invariant holds) targeting example.test:443. -/
def cexState : AdapterState :=
  { conn := HTTPBaseTLSConnection.init ("example.test") (some 443) none
    nextId := 0 }

/-- Environment without settimeout support and a succeeding TCP layer. -/
def envNoTimeout : NetEnv :=
  { hasSettimeout := false, connectResult := fun _ _ => none }

theorem connect_sock_after_tcp_ok (env : NetEnv) (hook : Hook)
    (st : AdapterState)
    (h : env.connectResult st.conn.host st.conn.port = none) :
    (HTTPBaseTLSConnection.connect env hook st).2.1.conn.sock =
      some (newSession env st) := by
  simp only [HTTPBaseTLSConnection.connect, h]
  cases hh : hook (newSession env st) with
  | error e => simp [hh]
  | ok u => simp [hh]

theorem connect_outcome_ok_iff (env : NetEnv) (hook : Hook)
    (st : AdapterState)
    (h : env.connectResult st.conn.host st.conn.port = none) :
    ((HTTPBaseTLSConnection.connect env hook st).2.2 = none ↔
      hook (newSession env st) = Except.ok ()) := by
  simp only [HTTPBaseTLSConnection.connect, h]
  cases hh : hook (newSession env st) with
  | error e => simp [hh]
  | ok u => simp [hh]

theorem connect_outcome_hook_error (env : NetEnv) (hook : Hook)
    (st : AdapterState) (e : Err)
    (h : env.connectResult st.conn.host st.conn.port = none)
    (hhook : hook (newSession env st) = Except.error e) :
    (HTTPBaseTLSConnection.connect env hook st).2.2 = some e := by
  simp [HTTPBaseTLSConnection.connect, h, hhook]

theorem connect_nextId (env : NetEnv) (hook : Hook) (st : AdapterState) :
    (HTTPBaseTLSConnection.connect env hook st).2.1.nextId = st.nextId + 1 := by
  unfold HTTPBaseTLSConnection.connect
  cases h : env.connectResult st.conn.host st.conn.port with
  | some msg => simp
  | none =>
      cases hh : hook (newSession env st) with
      | error e => simp [hh]
      | ok u => simp [hh]

theorem connect_trace_tcp_ok (env : NetEnv) (hook : Hook) (st : AdapterState)
    (h : env.connectResult st.conn.host st.conn.port = none) :
    (HTTPBaseTLSConnection.connect env hook st).1 =
      [Event.sockCreate st.nextId] ++
        (if env.hasSettimeout then [Event.sockSetTimeout st.nextId 10] else []) ++
        [Event.sockConnect st.nextId st.conn.host st.conn.port,
         Event.sessionCreate st.nextId st.nextId,
         Event.setSockField st.nextId,
         Event.handshakeCall st.nextId st.nextId] := by
  unfold HTTPBaseTLSConnection.connect
  rw [h]
  cases hh : hook (newSession env st) with
  | error e => simp [hh]
  | ok u => simp [hh]

theorem connect_trace_tcp_fail (env : NetEnv) (hook : Hook) (st : AdapterState)
    (msg : String) (h : env.connectResult st.conn.host st.conn.port = some msg) :
    (HTTPBaseTLSConnection.connect env hook st).1 =
      [Event.sockCreate st.nextId] ++
        (if env.hasSettimeout then [Event.sockSetTimeout st.nextId 10] else []) := by
  unfold HTTPBaseTLSConnection.connect
  rw [h]

theorem handshakedSockIds_connect (env : NetEnv) (hook : Hook)
    (st : AdapterState) (i : Nat)
    (hi : i ∈ handshakedSockIds (HTTPBaseTLSConnection.connect env hook st).1) :
    i = st.nextId := by
  cases h : env.connectResult st.conn.host st.conn.port with
  | some msg =>
      rw [connect_trace_tcp_fail env hook st msg h] at hi
      cases hb : env.hasSettimeout <;>
        simp [hb, handshakedSockIds] at hi
  | none =>
      rw [connect_trace_tcp_ok env hook st h] at hi
      cases hb : env.hasSettimeout <;>
        simp [hb, handshakedSockIds] at hi <;> exact hi

theorem createdSockIds_connect (env : NetEnv) (hook : Hook)
    (st : AdapterState) (i : Nat)
    (hi : i ∈ createdSockIds (HTTPBaseTLSConnection.connect env hook st).1) :
    i = st.nextId := by
  cases h : env.connectResult st.conn.host st.conn.port with
  | some msg =>
      rw [connect_trace_tcp_fail env hook st msg h] at hi
      cases hb : env.hasSettimeout <;>
        simp [hb, createdSockIds] at hi <;> exact hi
  | none =>
      rw [connect_trace_tcp_ok env hook st h] at hi
      cases hb : env.hasSettimeout <;>
        simp [hb, createdSockIds] at hi <;> exact hi

theorem createdSessionIds_connect (env : NetEnv) (hook : Hook)
    (st : AdapterState) (i : Nat)
    (hi : i ∈ createdSessionIds (HTTPBaseTLSConnection.connect env hook st).1) :
    i = st.nextId := by
  cases h : env.connectResult st.conn.host st.conn.port with
  | some msg =>
      rw [connect_trace_tcp_fail env hook st msg h] at hi
      cases hb : env.hasSettimeout <;>
        simp [hb, createdSessionIds] at hi
  | none =>
      rw [connect_trace_tcp_ok env hook st h] at hi
      cases hb : env.hasSettimeout <;>
        simp [hb, createdSessionIds] at hi <;> exact hi

/-- Claim C1: for every credential set violating the pairing invariant
(for example username supplied without password, or certChain supplied
without privateKey), construction of the concrete adapter fails with a
configuration error and emits no event, so no network socket is opened
before the failure. -/
theorem c1_pairing_violation_fails_before_io (host : String)
    (port : Option Nat) (c : Credentials) (h : c.pairingOk = false) :
    (HTTPTLSConnection.init host port c).1 = [] ∧
      (HTTPTLSConnection.init host port c).2 =
        Except.error (Err.configError ("credential pairing invariant violated")) := by
  unfold HTTPTLSConnection.init ClientHelper.init
  rw [h]
  exact ⟨rfl, rfl⟩

/-- Witness for C1: username supplied without password. -/
theorem c1_witness :
    ({ username := some ("alice"), password := none, certChain := none,
       privateKey := none, x509Fingerprint := none,
       settings := none } : Credentials).pairingOk = false ∧
      ((HTTPTLSConnection.init ("example.test") (some 443)
          { username := some ("alice"), password := none, certChain := none,
            privateKey := none, x509Fingerprint := none,
            settings := none }).1 = [] ∧
        (HTTPTLSConnection.init ("example.test") (some 443)
          { username := some ("alice"), password := none, certChain := none,
            privateKey := none, x509Fingerprint := none,
            settings := none }).2 =
          Except.error (Err.configError ("credential pairing invariant violated"))) :=
  ⟨by decide,
    c1_pairing_violation_fails_before_io ("example.test") (some 443)
      { username := some ("alice"), password := none, certChain := none,
        privateKey := none, x509Fingerprint := none, settings := none }
      (by decide)⟩

/-- Claim C3: when the TCP connect succeeds, connect() performs, in this
order, socket creation (with the optional timeout setting), the TCP
connect to (host, port), the wrap in a fresh session, the replacement of
the transport handle, and then exactly one handshake invocation on that
session; and no later connect() call from the resulting state ever
invokes the handshake on the same underlying socket. -/
theorem c3_connect_steps_in_order (env : NetEnv) (hook : Hook)
    (st : AdapterState)
    (h : env.connectResult st.conn.host st.conn.port = none) :
    (HTTPBaseTLSConnection.connect env hook st).1 =
      [Event.sockCreate st.nextId] ++
        (if env.hasSettimeout then [Event.sockSetTimeout st.nextId 10] else []) ++
        [Event.sockConnect st.nextId st.conn.host st.conn.port,
         Event.sessionCreate st.nextId st.nextId,
         Event.setSockField st.nextId,
         Event.handshakeCall st.nextId st.nextId] ∧
      handshakeCallCount (HTTPBaseTLSConnection.connect env hook st).1 = 1 ∧
      (∀ env2 hook2 i,
        i ∈ handshakedSockIds
            (HTTPBaseTLSConnection.connect env2 hook2
              (HTTPBaseTLSConnection.connect env hook st).2.1).1 →
          i ≠ st.nextId) := by
  refine ⟨connect_trace_tcp_ok env hook st h, ?_, ?_⟩
  · rw [connect_trace_tcp_ok env hook st h]
    cases hb : env.hasSettimeout <;> simp [hb, handshakeCallCount]
  · intro env2 hook2 i hi
    have h2 := handshakedSockIds_connect env2 hook2
      (HTTPBaseTLSConnection.connect env hook st).2.1 i hi
    rw [connect_nextId env hook st] at h2
    omega

/-- Witness for C3 at a concrete environment and state. -/
theorem c3_witness :
    handshakeCallCount (HTTPBaseTLSConnection.connect envOk okHook st0).1 = 1 :=
  (c3_connect_steps_in_order envOk okHook st0 rfl).2.1

/-- Claim C5: whenever the handshake hook raises an error e, connect()
fails with exactly that error e, after exactly one handshake invocation:
no retry, and no replacement of the error by a different one.  The
concrete adapter hook is the ClientHelper hook unchanged. -/
theorem c5_error_propagated_unchanged (env : NetEnv) (hook : Hook)
    (st : AdapterState) (e : Err)
    (hconn : env.connectResult st.conn.host st.conn.port = none)
    (hhook : hook (newSession env st) = Except.error e) :
    (HTTPBaseTLSConnection.connect env hook st).2.2 = some e ∧
      handshakeCallCount (HTTPBaseTLSConnection.connect env hook st).1 = 1 ∧
      (∀ s oracle sess, HTTPTLSConnection.handshakeHook s oracle sess =
        oracle s.helper.creds sess) := by
  refine ⟨connect_outcome_hook_error env hook st e hconn hhook, ?_,
    fun s oracle sess => rfl⟩
  · rw [connect_trace_tcp_ok env hook st hconn]
    cases hb : env.hasSettimeout <;> simp [hb, handshakeCallCount]

/-- Witness for C5: a hook raising a TLS error is propagated as is. -/
theorem c5_witness :
    (HTTPBaseTLSConnection.connect envOk failHook st0).2.2 =
      some (Err.tlsError ("handshake failure")) :=
  (c5_error_propagated_unchanged envOk failHook st0
    (Err.tlsError ("handshake failure")) rfl rfl).1

/-- Counterexample to claim C2: with a valid target and a credential set
satisfying the pairing invariant (no credentials), a handshake failure
leaves connect() failed while the adapter still owns, through its
transport handle, a live connected raw socket: the code never closes the
socket on handshake failure. -/
theorem c2_counterexample :
    noCreds.pairingOk = true ∧
      (HTTPBaseTLSConnection.connect envOk
        (ClientHelper.handshakeHook { creds := noCreds }
          (fun _ _ => Except.error (Err.tlsError ("handshake failure"))))
        cexState).2.2 = some (Err.tlsError ("handshake failure")) ∧
      (HTTPBaseTLSConnection.connect envOk
        (ClientHelper.handshakeHook { creds := noCreds }
          (fun _ _ => Except.error (Err.tlsError ("handshake failure"))))
        cexState).2.1.ownsLiveSocket = true := by
  refine ⟨by decide, ?_, ?_⟩ <;> rfl

/-- Claim C2 (amended): connect() either succeeds and leaves the
transport handle referring to the new Secure Session (routing subsequent
reads and writes through it), or fails; when the raw TCP connect fails
the transport handle is unchanged and the new socket is not retained by
the adapter, but when the handshake hook fails the transport handle
still refers to the new Secure Session wrapping the live connected
socket, which the adapter does not close - the caller must discard it. -/
theorem c2_connect_resource_state (env : NetEnv) (hook : Hook)
    (st : AdapterState) :
    (∀ msg, env.connectResult st.conn.host st.conn.port = some msg →
      (HTTPBaseTLSConnection.connect env hook st).2.1.conn.sock = st.conn.sock ∧
        (HTTPBaseTLSConnection.connect env hook st).2.2 =
          some (Err.socketError msg)) ∧
      (env.connectResult st.conn.host st.conn.port = none →
        (HTTPBaseTLSConnection.connect env hook st).2.1.conn.sock =
            some (newSession env st) ∧
          ((HTTPBaseTLSConnection.connect env hook st).2.2 = none ↔
            hook (newSession env st) = Except.ok ())) := by
  constructor
  · intro msg hmsg
    simp [HTTPBaseTLSConnection.connect, hmsg]
  · intro hnone
    exact ⟨connect_sock_after_tcp_ok env hook st hnone,
      connect_outcome_ok_iff env hook st hnone⟩

/-- Witness for the amended C2: on success the transport handle refers
to the new session. -/
theorem c2_amended_witness :
    (HTTPBaseTLSConnection.connect envOk okHook cexState).2.1.conn.sock =
      some (newSession envOk cexState) :=
  ((c2_connect_resource_state envOk okHook cexState).2 rfl).1

/-- Claim C4: two successive connect() calls on the same adapter create
disjoint raw sockets, disjoint Secure Sessions, and perform their
handshake invocations on disjoint sockets: nothing from the first call
is reused in the second. -/
theorem c4_two_connects_independent (env1 env2 : NetEnv)
    (hook1 hook2 : Hook) (st : AdapterState) :
    (∀ i, i ∈ createdSockIds (HTTPBaseTLSConnection.connect env1 hook1 st).1 →
      ∀ j, j ∈ createdSockIds
          (HTTPBaseTLSConnection.connect env2 hook2
            (HTTPBaseTLSConnection.connect env1 hook1 st).2.1).1 → i ≠ j) ∧
      (∀ i, i ∈ createdSessionIds (HTTPBaseTLSConnection.connect env1 hook1 st).1 →
        ∀ j, j ∈ createdSessionIds
            (HTTPBaseTLSConnection.connect env2 hook2
              (HTTPBaseTLSConnection.connect env1 hook1 st).2.1).1 → i ≠ j) ∧
      (∀ i, i ∈ handshakedSockIds (HTTPBaseTLSConnection.connect env1 hook1 st).1 →
        ∀ j, j ∈ handshakedSockIds
            (HTTPBaseTLSConnection.connect env2 hook2
              (HTTPBaseTLSConnection.connect env1 hook1 st).2.1).1 → i ≠ j) := by
  refine ⟨?_, ?_, ?_⟩ <;>
    intro i hi j hj
  · have h1 := createdSockIds_connect env1 hook1 st i hi
    have h2 := createdSockIds_connect env2 hook2
      (HTTPBaseTLSConnection.connect env1 hook1 st).2.1 j hj
    rw [connect_nextId env1 hook1 st] at h2
    omega
  · have h1 := createdSessionIds_connect env1 hook1 st i hi
    have h2 := createdSessionIds_connect env2 hook2
      (HTTPBaseTLSConnection.connect env1 hook1 st).2.1 j hj
    rw [connect_nextId env1 hook1 st] at h2
    omega
  · have h1 := handshakedSockIds_connect env1 hook1 st i hi
    have h2 := handshakedSockIds_connect env2 hook2
      (HTTPBaseTLSConnection.connect env1 hook1 st).2.1 j hj
    rw [connect_nextId env1 hook1 st] at h2
    omega

/-- Witness for C4: the socket of the first call (identity 0) differs
from the socket of the second call (identity 1). -/
theorem c4_witness :
    (0 : Nat) ∈ createdSockIds (HTTPBaseTLSConnection.connect envOk okHook st0).1 ∧
      (1 : Nat) ∈ createdSockIds
        (HTTPBaseTLSConnection.connect envOk okHook
          (HTTPBaseTLSConnection.connect envOk okHook st0).2.1).1 ∧
      (0 : Nat) ≠ 1 :=
  ⟨by decide, by decide,
    (c4_two_connects_independent envOk envOk okHook okHook st0).1 0 (by decide)
      1 (by decide)⟩

/-- Claim C6: when the platform supports settimeout, connect() sets a
timeout of 10 units on the new socket; when it does not, no timeout
event occurs and connect() still proceeds to the handshake with the same
outcome, rather than failing for lack of timeout support. -/
theorem c6_timeout_best_effort (env : NetEnv) (hook : Hook)
    (st : AdapterState) :
    (env.hasSettimeout = true →
      Event.sockSetTimeout st.nextId 10 ∈
        (HTTPBaseTLSConnection.connect env hook st).1) ∧
      (env.hasSettimeout = false →
        ∀ i s, Event.sockSetTimeout i s ∉
          (HTTPBaseTLSConnection.connect env hook st).1) ∧
      (env.hasSettimeout = false →
        env.connectResult st.conn.host st.conn.port = none →
        Event.handshakeCall st.nextId st.nextId ∈
            (HTTPBaseTLSConnection.connect env hook st).1 ∧
          ((HTTPBaseTLSConnection.connect env hook st).2.2 = none ↔
            hook (newSession env st) = Except.ok ())) := by
  refine ⟨?_, ?_, ?_⟩
  · intro hb
    cases h : env.connectResult st.conn.host st.conn.port with
    | some msg =>
        rw [connect_trace_tcp_fail env hook st msg h]
        simp [hb]
    | none =>
        rw [connect_trace_tcp_ok env hook st h]
        simp [hb]
  · intro hb i s hmem
    cases h : env.connectResult st.conn.host st.conn.port with
    | some msg =>
        rw [connect_trace_tcp_fail env hook st msg h] at hmem
        simp [hb] at hmem
    | none =>
        rw [connect_trace_tcp_ok env hook st h] at hmem
        simp [hb] at hmem
  · intro hb hnone
    constructor
    · rw [connect_trace_tcp_ok env hook st hnone]
      simp [hb]
    · exact connect_outcome_ok_iff env hook st hnone

/-- Witness for C6: without settimeout support, connect() reaches the
handshake and succeeds when the hook succeeds. -/
theorem c6_witness :
    Event.handshakeCall 0 0 ∈
        (HTTPBaseTLSConnection.connect envNoTimeout okHook st0).1 ∧
      ((HTTPBaseTLSConnection.connect envNoTimeout okHook st0).2.2 = none ↔
        okHook (newSession envNoTimeout st0) = Except.ok ()) :=
  (c6_timeout_best_effort envNoTimeout okHook st0).2.2 rfl rfl

/-- Claim C7: the base adapter handshake hook is abstract: invoking it
on any session fails with the not-implemented error and touches nothing,
and connect() run with the base hook fails with the not-implemented
error whenever the TCP connect succeeds. -/
theorem c7_base_hook_abstract (env : NetEnv) (st : AdapterState)
    (sess : TLSConnection)
    (hconn : env.connectResult st.conn.host st.conn.port = none) :
    HTTPBaseTLSConnection.handshakeHook sess =
        Except.error Err.notImplementedError ∧
      (HTTPBaseTLSConnection.connect env
        HTTPBaseTLSConnection.handshakeHook st).2.2 =
        some Err.notImplementedError := by
  exact ⟨rfl, connect_outcome_hook_error env
    HTTPBaseTLSConnection.handshakeHook st Err.notImplementedError hconn rfl⟩

/-- Witness for C7 at a concrete environment, state and session. -/
theorem c7_witness :
    (HTTPBaseTLSConnection.connect envOk
      HTTPBaseTLSConnection.handshakeHook st0).2.2 =
      some Err.notImplementedError :=
  (c7_base_hook_abstract envOk st0 (newSession envOk st0) rfl).2

/-- Claim C8: construction of the concrete adapter with a valid
credential set emits no event (no network I/O), stores host, port and
credentials with an empty transport handle, and the port defaults to
443 when omitted. -/
theorem c8_construct_stores_only (host : String) (port : Nat)
    (c : Credentials) (h : c.pairingOk = true) :
    (HTTPTLSConnection.init host (some port) c).1 = [] ∧
      (HTTPTLSConnection.init host none c).1 = [] ∧
      (HTTPTLSConnection.init host (some port) c).2 =
        Except.ok
          { base :=
              { conn := { host := host, port := port, strictArg := none, sock := none }
                nextId := 0 }
            helper := { creds := c } } ∧
      (HTTPTLSConnection.init host none c).2 =
        Except.ok
          { base :=
              { conn := { host := host, port := 443, strictArg := none, sock := none }
                nextId := 0 }
            helper := { creds := c } } := by
  unfold HTTPTLSConnection.init ClientHelper.init
  rw [h]
  refine ⟨rfl, rfl, rfl, rfl⟩

/-- Witness for C8 with no credentials at example.test. -/
theorem c8_witness :
    (HTTPTLSConnection.init ("example.test") none noCreds).2 =
      Except.ok
        { base :=
            { conn :=
                { host := ("example.test"), port := 443, strictArg := none,
                  sock := none }
              nextId := 0 }
          helper := { creds := noCreds } } :=
  (c8_construct_stores_only ("example.test") 443 noCreds (by decide)).2.2.2

/-- Claim C9: connect() assigns the transport handle before invoking the
handshake hook (in the trace the handle replacement immediately precedes
the single handshake invocation), so when the hook raises an error the
call fails with it while the transport handle already refers to the new
session wrapping the connected socket. -/
theorem c9_handle_assigned_before_hook (env : NetEnv) (hook : Hook)
    (st : AdapterState) (e : Err)
    (hconn : env.connectResult st.conn.host st.conn.port = none)
    (hhook : hook (newSession env st) = Except.error e) :
    (HTTPBaseTLSConnection.connect env hook st).2.2 = some e ∧
      (HTTPBaseTLSConnection.connect env hook st).2.1.conn.sock =
        some (newSession env st) ∧
      ∃ pre, (HTTPBaseTLSConnection.connect env hook st).1 =
        pre ++ [Event.setSockField st.nextId,
                Event.handshakeCall st.nextId st.nextId] := by
  refine ⟨connect_outcome_hook_error env hook st e hconn hhook,
    connect_sock_after_tcp_ok env hook st hconn, ?_⟩
  refine ⟨[Event.sockCreate st.nextId] ++
    (if env.hasSettimeout then [Event.sockSetTimeout st.nextId 10] else []) ++
    [Event.sockConnect st.nextId st.conn.host st.conn.port,
     Event.sessionCreate st.nextId st.nextId], ?_⟩
  rw [connect_trace_tcp_ok env hook st hconn]
  simp

/-- Witness for C9: a failing hook leaves the handle on the new session. -/
theorem c9_witness :
    (HTTPBaseTLSConnection.connect envOk failHook st0).2.2 =
        some (Err.tlsError ("handshake failure")) ∧
      (HTTPBaseTLSConnection.connect envOk failHook st0).2.1.conn.sock =
        some (newSession envOk st0) :=
  ⟨(c9_handle_assigned_before_hook envOk failHook st0
      (Err.tlsError ("handshake failure")) rfl rfl).1,
    (c9_handle_assigned_before_hook envOk failHook st0
      (Err.tlsError ("handshake failure")) rfl rfl).2.1⟩

/-- Claim C10: the concrete adapter constructor takes no strict
argument and calls the base constructor with strict omitted, so every
successfully constructed concrete adapter has the underlying HTTP
connection initialized without a strict argument. -/
theorem c10_strict_never_forwarded (host : String) (port : Option Nat)
    (c : Credentials) (st : HTTPTLSConnectionState)
    (h : (HTTPTLSConnection.init host port c).2 = Except.ok st) :
    st.base.conn.strictArg = none := by
  unfold HTTPTLSConnection.init ClientHelper.init at h
  by_cases hp : c.pairingOk
  · rw [if_pos hp] at h
    cases h
    rfl
  · rw [if_neg hp] at h
    cases h

/-- Witness for C10 at a concrete construction. -/
theorem c10_witness :
    ({ base :=
         { conn :=
             { host := ("example.test"), port := 443, strictArg := none,
               sock := none }
           nextId := 0 }
       helper := { creds := noCreds } } : HTTPTLSConnectionState).base.conn.strictArg
      = none :=
  c10_strict_never_forwarded ("example.test") (some 443) noCreds _ rfl

end Tlslite
